import Mathlib

/-!
Shallow embedding of the furst-optics component/transformation model and of
the coating-fit subsystem.

Conventions used throughout:

* Physical quantities (lengths, angles in radians, times, ...) are real
  numbers; named multidimensional broadcasting is specialized to scalars.
* The external affine-transformation primitive (na.transformations) is
  modelled by functions on 3-d vectors.  The composition operator `@` of the
  external library is matrix-like: `(a @ b)(p) = a (b p)`, i.e. the right
  operand is applied first, and a `TransformationList [t1, t2]` applies `t1`
  first and `t2` second (this is pinned down by the repository's own
  docstring examples, which place a component with
  `TransformationList([Cartesian3dTranslation(z=R), Cartesian3dRotationY(a)])`
  at the point `(R sin a, 0, R cos a)` of the Rowland circle).
* The optika orientation mixins (Translatable, Pitchable, Yawable, Rollable)
  each contribute `super().transformation @ own_step`, the same idiom the
  repository's `AbstractRowlandComponent.transformation` uses; consequently
  for a class with method-resolution order `[C1, ..., Cn]` the step of `C1`
  is applied first and the step of `Cn` last.  Pitch rotates about the x
  axis, yaw about the y axis and roll about the z axis.
-/

namespace FurstOptics

/-- Cartesian 2-d vector, modelling `na.Cartesian2dVectorArray` with scalar
components. -/
structure Vec2 where
  x : ℝ
  y : ℝ

/-- Cartesian 3-d vector, modelling `na.Cartesian3dVectorArray` with scalar
components. -/
structure Vec3 where
  x : ℝ
  y : ℝ
  z : ℝ

/-- Affine 3-d transformations are modelled extensionally, by their action on
points. -/
def Transform : Type := Vec3 → Vec3

noncomputable section

/-- Model of `na.transformations.Cartesian3dTranslation`. -/
def cartesian3dTranslation (t : Vec3) : Transform :=
  fun p => ⟨p.x + t.x, p.y + t.y, p.z + t.z⟩

/-- Model of `na.transformations.Cartesian3dRotationX` (used for pitch). -/
def cartesian3dRotationX (a : ℝ) : Transform :=
  fun p => ⟨p.x, p.y * Real.cos a - p.z * Real.sin a, p.y * Real.sin a + p.z * Real.cos a⟩

/-- Model of `na.transformations.Cartesian3dRotationY`: the standard
right-handed rotation about the y axis, sending `(0, 0, R)` to
`(R sin a, 0, R cos a)`. -/
def cartesian3dRotationY (a : ℝ) : Transform :=
  fun p => ⟨p.x * Real.cos a + p.z * Real.sin a, p.y, -p.x * Real.sin a + p.z * Real.cos a⟩

/-- Model of `na.transformations.Cartesian3dRotationZ` (used for roll). -/
def cartesian3dRotationZ (a : ℝ) : Transform :=
  fun p => ⟨p.x * Real.cos a - p.y * Real.sin a, p.x * Real.sin a + p.y * Real.cos a, p.z⟩

/-- Model of the external composition operator `@` on transformations:
the right operand is applied first. -/
def matmul (f g : Transform) : Transform :=
  fun p => f (g p)

/-- Model of the identity transformation contributed by the base
`optika.mixins.Transformable` class. -/
def idTransform : Transform :=
  fun p => p

/-- Model of `na.transformations.TransformationList`: the listed
transformations are applied in list order, first element first. -/
def transformation_list (ts : List Transform) : Transform :=
  fun p => ts.foldl (fun q t => t q) p

/-- Model of `AbstractRowlandComponent.transformation`
(src/furst_optics/_components.py, lines 53-64):

  super().transformation @ TransformationList(
    [Cartesian3dTranslation(x=0, y=0, z=rowland_radius),
     Cartesian3dRotationY(rowland_azimuth)])

where `superT` stands for the `super().transformation` value found by the
remainder of the instance's method-resolution order. -/
def rowlandComponentTransformation (superT : Transform)
    (rowland_radius rowland_azimuth : ℝ) : Transform :=
  matmul superT
    (transformation_list
      [cartesian3dTranslation ⟨0, 0, rowland_radius⟩,
       cartesian3dRotationY rowland_azimuth])

/-- Default value of the `samples_wire` argument of the external
`optika.apertures.RectangularAperture` constructor.  The exact value is
internal to the external library; it is never inspected by this repository,
which at most overrides it explicitly. -/
def samples_wire_default : ℕ := 21

/-- Model of the external aperture objects used by the components:
`optika.apertures.CircularAperture` and
`optika.apertures.RectangularAperture` (with its `samples_wire` count and
optional internal transformation). -/
inductive Aperture
  | circular (radius : ℝ)
  | rectangular (half_width : Vec2) (samples_wire : ℕ) (transform : Option Transform)

/-- Model of `optika.sags.CylindricalSag`. -/
structure CylindricalSag where
  radius : ℝ

/-- Model of the external `optika.surfaces.Surface` record, generic over the
sag, material and ruling payload types (mirroring the `Generic[SagT,
MaterialT, RulingT]` parametrization used by `Grating`).  Fields not passed
by a caller default to `none` / `false` in the external library. -/
structure Surface (Sag Mat Rul : Type) where
  name : String
  sag : Option Sag
  material : Option Mat
  aperture : Option Aperture
  aperture_mechanical : Option Aperture
  rulings : Option Rul
  is_field_stop : Bool
  is_pupil_stop : Bool
  transform : Transform

/-- Model of the external `optika.sensors.ImagingSensor` record produced by
`Detector.surface`. -/
structure ImagingSensor (Mat : Type) where
  name : String
  width_pixel : ℝ
  axis_pixel : Option (String × String)
  num_pixel : ℕ
  timedelta_exposure : ℝ
  material : Option Mat
  transform : Transform

/-- Model of `FrontAperture` (src/furst_optics/_front_apertures.py): a
dataclass whose generated constructor performs plain field assignment. -/
structure FrontAperture where
  translation : Vec3

/-- Net transformation of `FrontAperture`: only `optika.mixins.Translatable`
contributes. -/
def FrontAperture.transformation (a : FrontAperture) : Transform :=
  matmul idTransform (cartesian3dTranslation a.translation)

/-- Model of `FrontAperture.surface`: an unshaped, unmaterialed surface. -/
def FrontAperture.surface (a : FrontAperture) : Surface Empty Empty Empty :=
  { name := "front aperture"
    sag := none
    material := none
    aperture := none
    aperture_mechanical := none
    rulings := none
    is_field_stop := false
    is_pupil_stop := false
    transform := a.transformation }

/-- Conversion factor from arcseconds to radians. -/
def arcsec : ℝ := Real.pi / 648000

/-- Model of the external constant `sunpy.sun.constants.average_angular_size`
(959.63 arcsec). -/
def average_angular_size : ℝ := 959.63 * arcsec

/-- Model of `SolarDisk` (src/furst_optics/sources/_sources.py) in its
post-construction state: `__post_init__` has already replaced a `None`
radius by the standard solar angular radius, so the stored radius is a
plain angle. -/
structure SolarDisk where
  radius : ℝ
  translation : Vec3

/-- Model of `SolarDisk` dataclass construction including `__post_init__`:
a `None` radius argument is resolved, once, to
`sunpy.sun.constants.average_angular_size`. -/
def SolarDisk.construct (radius : Option ℝ) (translation : Vec3) : SolarDisk :=
  ⟨radius.getD average_angular_size, translation⟩

/-- Net transformation of `SolarDisk`: only `optika.mixins.Translatable`
contributes. -/
def SolarDisk.transformation (s : SolarDisk) : Transform :=
  matmul idTransform (cartesian3dTranslation s.translation)

/-- Model of `SolarDisk.surface`: a field-stop surface bounded by a circular
aperture of radius `cos(radius)`. -/
def SolarDisk.surface (s : SolarDisk) : Surface Empty Empty Empty :=
  { name := "solar disk"
    sag := none
    material := none
    aperture := some (.circular (Real.cos s.radius))
    aperture_mechanical := none
    rulings := none
    is_field_stop := true
    is_pupil_stop := false
    transform := s.transformation }

/-- Model of the `FeedOptic` dataclass
(src/furst_optics/feed_optics/_feed_optics.py), generic over the material
payload type.  The generated constructor performs plain field assignment;
there is no `__post_init__` and no validation. -/
structure FeedOptic (Mat : Type) where
  name : String
  radius : ℝ
  aperture_subtent : ℝ
  aperture_height : ℝ
  margin_polishing : ℝ
  margin_mounting : ℝ
  material : Option Mat
  rowland_radius : ℝ
  rowland_azimuth : ℝ
  translation : Vec3
  pitch : ℝ
  yaw : ℝ
  roll : ℝ

/-- Inherited `super().transformation` chain of `FeedOptic`, whose bases are
`(Printable, Rollable, Yawable, Pitchable, AbstractRowlandComponent,
Translatable)`.  Unrolling the cooperative `super().transformation @ step`
chain along that method-resolution order, the roll step is applied first,
then yaw, then pitch, then the Rowland translate-and-rotate step, and the
translation step last. -/
def FeedOptic.transformation_inherited {Mat : Type} (f : FeedOptic Mat) : Transform :=
  matmul
    (matmul
      (matmul
        (rowlandComponentTransformation
          (matmul idTransform (cartesian3dTranslation f.translation))
          f.rowland_radius f.rowland_azimuth)
        (cartesian3dRotationX f.pitch))
      (cartesian3dRotationY f.yaw))
    (cartesian3dRotationZ f.roll)

/-- Model of the `FeedOptic.transformation` override
(src/furst_optics/feed_optics/_feed_optics.py, lines 165-180):

  t_center = Cartesian3dTranslation(z=-radius)
  t_yaw    = Cartesian3dRotationY(angle=-rowland_azimuth)
  t_img    = Cartesian3dTranslation(z=radius/2)
  return t_img @ super().transformation @ t_yaw @ t_center
-/
def FeedOptic.transformation {Mat : Type} (f : FeedOptic Mat) : Transform :=
  matmul
    (cartesian3dTranslation ⟨0, 0, f.radius / 2⟩)
    (matmul f.transformation_inherited
      (matmul
        (cartesian3dRotationY (-f.rowland_azimuth))
        (cartesian3dTranslation ⟨0, 0, -f.radius⟩)))

/-- Model of `FeedOptic.surface`
(src/furst_optics/feed_optics/_feed_optics.py, lines 182-207): a cylindrical
sag, the clear rectangular aperture with half-widths
`(radius * sin(aperture_subtent / 2), aperture_height / 2)`, and the
mechanical rectangular aperture with half-widths
`(0.99 * radius, aperture_height / 2 + margin_mounting + margin_polishing)`,
`samples_wire=1001`, offset by
`Cartesian3dTranslation(y=margin_polishing - margin_mounting)`. -/
def FeedOptic.surface {Mat : Type} (f : FeedOptic Mat) : Surface CylindricalSag Mat Empty :=
  { name := f.name
    sag := some ⟨f.radius⟩
    material := f.material
    aperture := some (.rectangular
      ⟨f.radius * Real.sin (f.aperture_subtent / 2), f.aperture_height / 2⟩
      samples_wire_default none)
    aperture_mechanical := some (.rectangular
      ⟨0.99 * f.radius, f.aperture_height / 2 + f.margin_mounting + f.margin_polishing⟩
      1001
      (some (cartesian3dTranslation ⟨0, f.margin_polishing - f.margin_mounting, 0⟩)))
    rulings := none
    is_field_stop := false
    is_pupil_stop := false
    transform := f.transformation }

/-- Model of the `Grating` dataclass
(src/furst_optics/gratings/_gratings.py), generic over the sag, material and
ruling payload types exactly as the source is `Generic[SagT, MaterialT,
RulingT]`.  The generated constructor performs plain field assignment; there
is no `__post_init__` and no validation. -/
structure Grating (Sag Mat Rul : Type) where
  name : String
  sag : Option Sag
  radius : ℝ
  width_clear : Vec2
  width_mech : Vec2
  material : Option Mat
  rulings : Option Rul
  rowland_radius : ℝ
  rowland_azimuth : ℝ
  translation : Vec3
  pitch : ℝ
  yaw : ℝ
  roll : ℝ

/-- Local orientation-mixin chain of `Grating`
(bases `Rollable, Yawable, Pitchable, Translatable`): roll applied first,
then yaw, then pitch, then the translation. -/
def Grating.transformation_local {Sag Mat Rul : Type} (g : Grating Sag Mat Rul) : Transform :=
  matmul
    (matmul
      (matmul (cartesian3dTranslation g.translation) (cartesian3dRotationX g.pitch))
      (cartesian3dRotationY g.yaw))
    (cartesian3dRotationZ g.roll)

/-- Net transformation of `Grating`, whose bases are
`(Rollable, Yawable, Pitchable, Translatable, AbstractRowlandComponent)`:
the local orientation chain is applied first and the Rowland
translate-and-rotate step last (the `super().transformation` seen by
`AbstractRowlandComponent` is the identity of the `Transformable` base). -/
def Grating.transformation {Sag Mat Rul : Type} (g : Grating Sag Mat Rul) : Transform :=
  matmul
    (rowlandComponentTransformation idTransform g.rowland_radius g.rowland_azimuth)
    g.transformation_local

/-- Model of `Grating.surface`
(src/furst_optics/gratings/_gratings.py, lines 170-185). -/
def Grating.surface {Sag Mat Rul : Type} (g : Grating Sag Mat Rul) : Surface Sag Mat Rul :=
  { name := g.name
    sag := g.sag
    material := g.material
    aperture := some (.rectangular
      ⟨g.width_clear.x / 2, g.width_clear.y / 2⟩ samples_wire_default none)
    aperture_mechanical := some (.rectangular
      ⟨g.width_mech.x / 2, g.width_mech.y / 2⟩ samples_wire_default none)
    rulings := g.rulings
    is_field_stop := false
    is_pupil_stop := true
    transform := g.transformation }

/-- Model of the `Detector` dataclass
(src/furst_optics/detectors/_detectors.py), generic over the sensor-material
payload type.  The generated constructor performs plain field assignment;
there is no `__post_init__` and no validation. -/
structure Detector (Mat : Type) where
  name : String
  manufacturer : String
  model_number : String
  serial_number : String
  width_pixel : ℝ
  axis_pixel : Option (String × String)
  num_pixel : ℕ
  num_pixel_overscan : ℕ
  num_pixel_blank : ℕ
  material : Option Mat
  rowland_radius : ℝ
  rowland_azimuth : ℝ
  translation : Vec3
  pitch : ℝ
  yaw : ℝ
  roll : ℝ
  temperature : ℝ
  gain : ℝ
  readout_noise : ℝ
  dark_current : ℝ
  charge_diffusion : ℝ
  timedelta_transfer : ℝ
  timedelta_readout : ℝ
  timedelta_exposure : ℝ
  timedelta_exposure_min : ℝ
  timedelta_exposure_max : ℝ
  bits_adc : ℕ

/-- Local orientation-mixin chain of `Detector`
(bases `Rollable, Yawable, Pitchable, Translatable`). -/
def Detector.transformation_local {Mat : Type} (d : Detector Mat) : Transform :=
  matmul
    (matmul
      (matmul (cartesian3dTranslation d.translation) (cartesian3dRotationX d.pitch))
      (cartesian3dRotationY d.yaw))
    (cartesian3dRotationZ d.roll)

/-- Net transformation of `Detector`, whose bases are
`(Rollable, Yawable, Pitchable, Translatable, AbstractRowlandComponent)`:
same shape as `Grating.transformation`. -/
def Detector.transformation {Mat : Type} (d : Detector Mat) : Transform :=
  matmul
    (rowlandComponentTransformation idTransform d.rowland_radius d.rowland_azimuth)
    d.transformation_local

/-- Model of `Detector.surface`
(src/furst_optics/detectors/_detectors.py, lines 229-239): an
`ImagingSensor` built from the name, pixel geometry, exposure time, sensor
material and net transformation only. -/
def Detector.surface {Mat : Type} (d : Detector Mat) : ImagingSensor Mat :=
  { name := d.name
    width_pixel := d.width_pixel
    axis_pixel := d.axis_pixel
    num_pixel := d.num_pixel
    timedelta_exposure := d.timedelta_exposure
    material := d.material
    transform := d.transformation }

/-- Model of `optika.materials.profiles.ErfInterfaceProfile` (only its
`width`, the one field the fitter reads and writes). -/
structure ErfInterfaceProfile where
  width : ℝ

/-- Model of `optika.materials.Layer`: chemical identity, thickness and
interface profile.  Lengths are expressed in nanometers, the unit the
fitter works in; the purely cosmetic `kwargs_plot` field is omitted. -/
structure Layer where
  chemical : String
  thickness : ℝ
  interface : ErfInterfaceProfile

/-- Model of `optika.materials.MultilayerMirror`: an ordered layer stack over
a substrate layer. -/
structure MultilayerMirror where
  layers : List Layer
  substrate : Layer

/-- Model of `coating_design`
(src/furst_optics/feed_optics/materials/_materials.py, lines 15-103):
MgF2 (25 nm) over Al (60 nm) over an SiO2 substrate (3 mm = 3000000 nm),
every interface an ErfInterfaceProfile of width 1 nm. -/
def coating_design : MultilayerMirror :=
  { layers :=
      [⟨"MgF2", 25, ⟨1⟩⟩,
       ⟨"Al", 60, ⟨1⟩⟩]
    substrate := ⟨"SiO2", 3000000, ⟨1⟩⟩ }

/-- Model of the measured-reflectance data consumed by the fitter: the
wavelength array, the reflectance array and the single fixed incidence
angle of the whole table (the file-loading collaborator
`coating_witness_measured` is external I/O, treated as a data source). -/
structure ReflectivityMeasurement where
  wavelength : List ℝ
  reflectivity : List ℝ
  direction : ℝ

/-- Model of the local helper `_coating(thickness_MgF2, thickness_Al,
width_interface)` inside `coating_witness_fit`
(src/furst_optics/feed_optics/materials/_materials.py, lines 284-296):
rebuild `coating_design` with the two layer thicknesses replaced and every
interface width (both layers and the substrate) replaced by the common
width; chemical identities, layer order and the substrate thickness are
unchanged. -/
def coating_build (thickness_MgF2 thickness_Al width_interface : ℝ) : MultilayerMirror :=
  { layers :=
      [⟨"MgF2", thickness_MgF2, ⟨width_interface⟩⟩,
       ⟨"Al", thickness_Al, ⟨width_interface⟩⟩]
    substrate := ⟨"SiO2", 3000000, ⟨width_interface⟩⟩ }

/-- Arithmetic mean of a list, modelling `np.mean` (on the empty list the
Lean value is 0 by division-by-zero convention, where numpy would produce
NaN; no claim evaluates the objective on an empty list). -/
def listMean (l : List ℝ) : ℝ := l.sum / l.length

/-- Model of the local objective `_func(x)` inside `coating_witness_fit`
(src/furst_optics/feed_optics/materials/_materials.py, lines 298-309): the
root-mean-square residual between the external reflectance physics
(`multilayer.efficiency`, supplied here as the function argument
`efficiency` of the multilayer, the wavelength and the incidence angle) and
the measured reflectance, evaluated over the full measured-wavelength
array. -/
def coating_objective (efficiency : MultilayerMirror → ℝ → ℝ → ℝ)
    (m : ReflectivityMeasurement) (x : ℝ × ℝ × ℝ) : ℝ :=
  Real.sqrt (listMean
    ((m.wavelength.zip m.reflectivity).map
      (fun wr => (efficiency (coating_build x.1 x.2.1 x.2.2) wr.1 m.direction - wr.2) ^ 2)))

/-- Model of the result object returned by the external bounded optimizer
`scipy.optimize.minimize`: the final parameter vector together with the
convergence flag the optimizer reports. -/
structure OptimizeResult where
  x : ℝ × ℝ × ℝ
  success : Bool

/-- Signature of the external bounded optimizer: objective, initial guess,
bounds. -/
def Minimizer : Type :=
  ((ℝ × ℝ × ℝ) → ℝ) → (ℝ × ℝ × ℝ) → List (Option ℝ × Option ℝ) → OptimizeResult

/-- Model of `coating_witness_fit`
(src/furst_optics/feed_optics/materials/_materials.py, lines 199-325),
parametrized by the external reflectance physics, the externally loaded
measurement table and the external bounded optimizer:

  design = coating_design()
  fit = scipy.optimize.minimize(
      fun=_func,
      x0=[design.layers[0].thickness, design.layers[1].thickness,
          design.substrate.interface.width],
      bounds=[(0, None), (0, None), (0, None)])
  return _coating(*fit.x)

The function inspects neither the measurement set (no emptiness check) nor
`fit.success` (no convergence check); it unconditionally rebuilds a coating
from the optimizer's final parameter vector. -/
def coating_witness_fit (efficiency : MultilayerMirror → ℝ → ℝ → ℝ)
    (m : ReflectivityMeasurement) (minimize : Minimizer) : MultilayerMirror :=
  let design := coating_design
  let x0 : ℝ × ℝ × ℝ :=
    ((design.layers.getD 0 ⟨"", 0, ⟨0⟩⟩).thickness,
     (design.layers.getD 1 ⟨"", 0, ⟨0⟩⟩).thickness,
     design.substrate.interface.width)
  let fit := minimize (coating_objective efficiency m) x0
    [(some 0, none), (some 0, none), (some 0, none)]
  coating_build fit.x.1 fit.x.2.1 fit.x.2.2

/-- Concrete `FeedOptic` built with a negative Rowland radius.  The
dataclass-generated constructor of `FeedOptic` performs plain field
assignment (there is no `__post_init__` and no validator), so this
construction succeeds in the source. -/
def feed_optic_negative : FeedOptic Unit :=
  { name := "feed optic"
    radius := 3
    aperture_subtent := 0
    aperture_height := 0
    margin_polishing := 0
    margin_mounting := 0
    material := none
    rowland_radius := -1
    rowland_azimuth := 0
    translation := ⟨0, 0, 0⟩
    pitch := 0
    yaw := 0
    roll := 0 }

/-- Counterexample to claim C1: a successfully constructed RowlandComponent
(a `FeedOptic`) whose `rowland_radius` is negative.  Construction raised
nothing, and the invariant `rowland_radius ≥ 0` fails on the result. -/
theorem claim_C1_counterexample :
    feed_optic_negative.rowland_radius = -1 ∧ feed_optic_negative.rowland_radius < 0 := by
  refine ⟨rfl, ?_⟩
  norm_num [feed_optic_negative]

/-- Claim C1, amended: constructing a RowlandComponent (`FeedOptic`,
`Grating` or `Detector`) performs no validation of `rowland_radius`; every
real value, negative values included, is accepted and stored as given, and
no `RangeError` (or any other construction-time failure) exists in the
code. -/
theorem claim_C1_amended :
    ∀ r : ℝ,
      (∃ f : FeedOptic Unit, f.rowland_radius = r) ∧
      (∃ g : Grating Unit Unit Unit, g.rowland_radius = r) ∧
      (∃ d : Detector Unit, d.rowland_radius = r) := by
  intro r
  refine ⟨⟨⟨"feed optic", 0, 0, 0, 0, 0, none, r, 0, ⟨0, 0, 0⟩, 0, 0, 0⟩, rfl⟩, ?_, ?_⟩
  · exact ⟨⟨"grating", none, 0, ⟨0, 0⟩, ⟨0, 0⟩, none, none, r, 0, ⟨0, 0, 0⟩, 0, 0, 0⟩, rfl⟩
  · exact ⟨⟨"detector", "", "", "", 0, none, 0, 0, 0, none, r, 0, ⟨0, 0, 0⟩, 0, 0, 0,
      0, 0, 0, 0, 0, 0, 0, 0, 0, 0, 0⟩, rfl⟩

/-- Chain that claim C2 asserts for `FeedOptic.transformation`, modelled
from the claim's words: translate by `-radius` along the local z axis, then
the inherited Rowland-plus-orientation transformation, then translate by
`+radius/2` - with no further step.  To be compared with
`FeedOptic.transformation`, which inserts an extra
`Cartesian3dRotationY(-rowland_azimuth)` between the first translation and
the inherited chain. -/
def FeedOptic.transformation_claimed {Mat : Type} (f : FeedOptic Mat) : Transform :=
  matmul
    (cartesian3dTranslation ⟨0, 0, f.radius / 2⟩)
    (matmul f.transformation_inherited (cartesian3dTranslation ⟨0, 0, -f.radius⟩))

/-- Concrete `FeedOptic` used to separate the code's transformation from the
chain claimed by C2: radius 2 mm, Rowland radius 1000 mm, Rowland azimuth
90 degrees, all other pose fields zero. -/
def feed_optic_c2 : FeedOptic Unit :=
  { name := "feed optic"
    radius := 2
    aperture_subtent := 0
    aperture_height := 0
    margin_polishing := 0
    margin_mounting := 0
    material := none
    rowland_radius := 1000
    rowland_azimuth := Real.pi / 2
    translation := ⟨0, 0, 0⟩
    pitch := 0
    yaw := 0
    roll := 0 }

/-- Counterexample to claim C2: on a `FeedOptic` with radius 2 mm, Rowland
radius 1000 mm and Rowland azimuth 90 degrees, the code places the local
origin at x = 1000 mm while the chain claimed by C2 (which omits the
`Cartesian3dRotationY(-rowland_azimuth)` step of the code) places it at
x = 998 mm; the two transformations differ at the local origin. -/
theorem claim_C2_counterexample :
    (FeedOptic.transformation feed_optic_c2 ⟨0, 0, 0⟩).x = 1000 ∧
    (FeedOptic.transformation_claimed feed_optic_c2 ⟨0, 0, 0⟩).x = 998 ∧
    FeedOptic.transformation feed_optic_c2 ⟨0, 0, 0⟩ ≠
      FeedOptic.transformation_claimed feed_optic_c2 ⟨0, 0, 0⟩ := by
  refine ⟨?_, ?_, ?_⟩ <;>
    simp [FeedOptic.transformation, FeedOptic.transformation_claimed,
      FeedOptic.transformation_inherited, rowlandComponentTransformation, matmul,
      transformation_list, cartesian3dTranslation, cartesian3dRotationX,
      cartesian3dRotationY, cartesian3dRotationZ, idTransform, feed_optic_c2,
      Real.cos_pi_div_two, Real.sin_pi_div_two, Vec3.mk.injEq]
  norm_num

/-- Claim C2, amended: `FeedOptic.transformation` applied to a point equals
the chain: translate by `-radius` along the local z axis, then rotate by
`-rowland_azimuth` about the y axis (the extra step the original claim
omits), then the inherited Rowland-plus-orientation transformation, then
translate by `+radius/2` along the z axis. -/
theorem claim_C2_amended :
    ∀ (Mat : Type) (f : FeedOptic Mat) (p : Vec3),
      FeedOptic.transformation f p =
        cartesian3dTranslation ⟨0, 0, f.radius / 2⟩
          (f.transformation_inherited
            (cartesian3dRotationY (-f.rowland_azimuth)
              (cartesian3dTranslation ⟨0, 0, -f.radius⟩ p))) := by
  intro Mat f p
  rfl

/-- Stub for the external bounded optimizer that reports non-convergence:
it returns the initial guess unchanged with `success = False`, exactly what
`scipy.optimize.minimize` reports on a failed run. -/
def minimize_fail : Minimizer :=
  fun _f x0 _bounds => ⟨x0, false⟩

/-- An empty measurement set at the fixed incidence angle of 75 degrees. -/
def measurement_empty : ReflectivityMeasurement :=
  ⟨[], [], 75 * (Real.pi / 180)⟩

/-- Counterexample to claim C3: on an empty measurement set and an optimizer
run that reports non-convergence (and hands back the initial guess),
`coating_witness_fit` raises nothing and silently returns the unmodified
design coating. -/
theorem claim_C3_counterexample :
    measurement_empty.wavelength = [] ∧
    (minimize_fail (fun _ => 0) (25, 60, 1) []).success = false ∧
    coating_witness_fit (fun _ _ _ => 0) measurement_empty minimize_fail = coating_design := by
  exact ⟨rfl, rfl, rfl⟩

/-- Claim C3, amended: `coating_witness_fit` checks neither for an empty
measurement set nor for optimizer convergence; for every reflectance
physics, measurement table and optimizer it returns the coating rebuilt
from the optimizer's final parameter vector (preserving the design's
chemical identities and layer order), and in particular it never fails. -/
theorem claim_C3_amended :
    ∀ (efficiency : MultilayerMirror → ℝ → ℝ → ℝ) (m : ReflectivityMeasurement)
      (minimize : Minimizer),
      (coating_witness_fit efficiency m minimize).layers.map Layer.chemical =
        ["MgF2", "Al"] ∧
      (coating_witness_fit efficiency m minimize).substrate.chemical = "SiO2" ∧
      ∃ x : ℝ × ℝ × ℝ,
        coating_witness_fit efficiency m minimize = coating_build x.1 x.2.1 x.2.2 := by
  intro efficiency m minimize
  refine ⟨rfl, rfl, ?_⟩
  exact ⟨(minimize (coating_objective efficiency m) (25, 60, 1)
    [(some 0, none), (some 0, none), (some 0, none)]).x, rfl⟩

/-- Composition order asserted by claim C4, modelled from the claim's words:
first translate by the Rowland radius along the circle's axis, then rotate
by the Rowland azimuth about the circle's normal axis, then apply the
component's own local transformation.  To be compared with the code, in
which the local orientation-mixin chain is applied before the Rowland step
(the mixins precede `AbstractRowlandComponent` in the method-resolution
order of `Grating` and `Detector`). -/
def rowland_transformation_claimed (localT : Transform) (r az : ℝ) : Transform :=
  fun p => localT (cartesian3dRotationY az (cartesian3dTranslation ⟨0, 0, r⟩ p))

/-- Concrete `Grating` used to separate the code's composition order from
the order claimed by C4: local translation (1, 0, 0) mm, Rowland radius 0,
Rowland azimuth 90 degrees. -/
def grating_c4 : Grating Unit Unit Unit :=
  { name := "grating"
    sag := none
    radius := 0
    width_clear := ⟨0, 0⟩
    width_mech := ⟨0, 0⟩
    material := none
    rulings := none
    rowland_radius := 0
    rowland_azimuth := Real.pi / 2
    translation := ⟨1, 0, 0⟩
    pitch := 0
    yaw := 0
    roll := 0 }

/-- Counterexample to claim C4: on a `Grating` with local translation
(1, 0, 0), Rowland radius 0 and Rowland azimuth 90 degrees, the code sends
the local origin to (0, 0, -1) - the local translation is applied before
the Rowland rotation and is rotated by it - whereas the order claimed by C4
(Rowland step first, local transformation last) would send it to
(1, 0, 0). -/
theorem claim_C4_counterexample :
    (Grating.transformation grating_c4 ⟨0, 0, 0⟩).x = 0 ∧
    (rowland_transformation_claimed grating_c4.transformation_local
      grating_c4.rowland_radius grating_c4.rowland_azimuth ⟨0, 0, 0⟩).x = 1 ∧
    Grating.transformation grating_c4 ⟨0, 0, 0⟩ ≠
      rowland_transformation_claimed grating_c4.transformation_local
        grating_c4.rowland_radius grating_c4.rowland_azimuth ⟨0, 0, 0⟩ := by
  refine ⟨?_, ?_, ?_⟩ <;>
    simp [Grating.transformation, Grating.transformation_local,
      rowland_transformation_claimed, rowlandComponentTransformation, matmul,
      transformation_list, cartesian3dTranslation, cartesian3dRotationX,
      cartesian3dRotationY, cartesian3dRotationZ, idTransform, grating_c4,
      Real.cos_pi_div_two, Real.sin_pi_div_two, Vec3.mk.injEq]

/-- Claim C4, amended: for every RowlandComponent whose net transformation
is the inherited `AbstractRowlandComponent.transformation` (`Grating` and
`Detector`), applying the net transformation to a point equals: first apply
the component's own local transformation (roll, then yaw, then pitch, then
translation), then translate by `rowland_radius` along the circle's axis,
then rotate by `rowland_azimuth` about the circle's normal axis - the
Rowland rotation still applied after the Rowland translation - and at
`rowland_radius = 0` the composition stays well defined, degenerating to
the Rowland rotation after the local transformation with no singularity. -/
theorem claim_C4_amended :
    ∀ (Sag Mat Rul : Type) (g : Grating Sag Mat Rul) (Mat2 : Type) (d : Detector Mat2)
      (p : Vec3),
      Grating.transformation g p =
        cartesian3dRotationY g.rowland_azimuth
          (cartesian3dTranslation ⟨0, 0, g.rowland_radius⟩ (g.transformation_local p)) ∧
      Detector.transformation d p =
        cartesian3dRotationY d.rowland_azimuth
          (cartesian3dTranslation ⟨0, 0, d.rowland_radius⟩ (d.transformation_local p)) ∧
      Grating.transformation { g with rowland_radius := 0 } p =
        cartesian3dRotationY g.rowland_azimuth (g.transformation_local p) := by
  intro Sag Mat Rul g Mat2 d p
  refine ⟨rfl, rfl, ?_⟩
  simp only [Grating.transformation, rowlandComponentTransformation, matmul,
    transformation_list, cartesian3dTranslation, idTransform, List.foldl_cons,
    List.foldl_nil, add_zero]
  rfl

/-- Concrete `FeedOptic` used to separate the code's mechanical aperture
from the one claimed by C5: radius 1 mm, aperture subtent 180 degrees (so
the clear half-width is radius * sin(90 degrees) = 1 mm), aperture height
2 mm, polishing and mounting margins 1 mm each. -/
def feed_optic_c5 : FeedOptic Unit :=
  { name := "feed optic"
    radius := 1
    aperture_subtent := Real.pi
    aperture_height := 2
    margin_polishing := 1
    margin_mounting := 1
    material := none
    rowland_radius := 0
    rowland_azimuth := 0
    translation := ⟨0, 0, 0⟩
    pitch := 0
    yaw := 0
    roll := 0 }

/-- Counterexample to claim C5: on this `FeedOptic` the clear aperture has
horizontal half-width 1 mm but the mechanical aperture has horizontal
half-width 0.99 mm - strictly smaller than the clear one, not the clear
half-width inflated by the (here 1 mm) margins: the code computes the
mechanical horizontal half-width as `0.99 * radius`, which involves no
margin at all. -/
theorem claim_C5_counterexample :
    feed_optic_c5.surface.aperture =
      some (.rectangular ⟨1, 1⟩ samples_wire_default none) ∧
    feed_optic_c5.surface.aperture_mechanical =
      some (.rectangular ⟨0.99, 3⟩ 1001 (some (cartesian3dTranslation ⟨0, 0, 0⟩))) ∧
    (0.99 : ℝ) < 1 := by
  refine ⟨?_, ?_, by norm_num⟩ <;>
    simp [FeedOptic.surface, feed_optic_c5, Real.sin_pi_div_two,
      cartesian3dTranslation, Vec3.mk.injEq]
  norm_num

/-- Claim C5, amended: `FeedOptic.surface` carries a cylindrical sag of the
given radius and a rectangular clear aperture with half-widths
`(radius * sin(aperture_subtent / 2), aperture_height / 2)`; its separate
rectangular mechanical aperture has horizontal half-width `0.99 * radius`
(not margin-inflated), vertical half-width equal to the clear vertical
half-width inflated by both margins, and is offset vertically by
`margin_polishing - margin_mounting`. -/
theorem claim_C5_amended :
    ∀ (Mat : Type) (f : FeedOptic Mat),
      f.surface.sag = some ⟨f.radius⟩ ∧
      f.surface.aperture =
        some (.rectangular
          ⟨f.radius * Real.sin (f.aperture_subtent / 2), f.aperture_height / 2⟩
          samples_wire_default none) ∧
      f.surface.aperture_mechanical =
        some (.rectangular
          ⟨0.99 * f.radius, f.aperture_height / 2 + f.margin_mounting + f.margin_polishing⟩
          1001
          (some (cartesian3dTranslation ⟨0, f.margin_polishing - f.margin_mounting, 0⟩))) := by
  intro Mat f
  exact ⟨rfl, rfl, rfl⟩

/-- Claim C6: a `SolarDisk` (with explicit angular radius, or with the
standard solar angular radius resolved once at construction when the radius
argument is left unset) produces a field-stop surface bounded by a circular
aperture of radius `cos(radius)`; in particular, for an explicit radius of
1000 arcsec the aperture radius is `cos(1000 arcsec)`, which is strictly
positive. -/
theorem claim_C6 :
    ∀ (r : ℝ) (t : Vec3),
      (SolarDisk.construct (some r) t).surface.is_field_stop = true ∧
      (SolarDisk.construct (some r) t).surface.aperture =
        some (.circular (Real.cos r)) ∧
      (SolarDisk.construct none t).radius = average_angular_size ∧
      (SolarDisk.construct (some (1000 * arcsec)) t).surface.aperture =
        some (.circular (Real.cos (1000 * arcsec))) ∧
      0 < Real.cos (1000 * arcsec) := by
  intro r t
  refine ⟨rfl, rfl, rfl, rfl, ?_⟩
  have hpi := Real.pi_pos
  have h1 : (1000 : ℝ) * arcsec = Real.pi / 648 := by
    rw [arcsec]; ring
  rw [h1]
  refine Real.cos_pos_of_mem_Ioo ⟨?_, ?_⟩
  · linarith
  · linarith

/-- Claim C7: `Grating.surface` carries exactly the caller-supplied sag, the
caller-supplied rulings and the coating material, a rectangular clear
aperture of half-width `width_clear / 2`, a rectangular mechanical aperture
of half-width `width_mech / 2`, and is flagged as the system's pupil
stop. -/
theorem claim_C7 :
    ∀ (Sag Mat Rul : Type) (g : Grating Sag Mat Rul),
      g.surface.sag = g.sag ∧
      g.surface.rulings = g.rulings ∧
      g.surface.material = g.material ∧
      g.surface.aperture =
        some (.rectangular ⟨g.width_clear.x / 2, g.width_clear.y / 2⟩
          samples_wire_default none) ∧
      g.surface.aperture_mechanical =
        some (.rectangular ⟨g.width_mech.x / 2, g.width_mech.y / 2⟩
          samples_wire_default none) ∧
      g.surface.is_pupil_stop = true := by
  intro Sag Mat Rul g
  exact ⟨rfl, rfl, rfl, rfl, rfl, rfl⟩

/-- Claim C8: two `Detector` instances agreeing on the name, the pixel
geometry (`width_pixel`, `axis_pixel`, `num_pixel`), the exposure time, the
sensor material and every pose/Rowland field have equal surfaces, whatever
their readout-electronics fields (gain, readout noise, dark current, charge
diffusion, transfer/readout timings, exposure limits, overscan/blank
counts, ADC bit depth, temperature, identification strings other than the
name) hold. -/
theorem claim_C8 :
    ∀ (Mat : Type) (d1 d2 : Detector Mat),
      d1.name = d2.name → d1.width_pixel = d2.width_pixel →
      d1.axis_pixel = d2.axis_pixel → d1.num_pixel = d2.num_pixel →
      d1.timedelta_exposure = d2.timedelta_exposure → d1.material = d2.material →
      d1.rowland_radius = d2.rowland_radius → d1.rowland_azimuth = d2.rowland_azimuth →
      d1.translation = d2.translation → d1.pitch = d2.pitch → d1.yaw = d2.yaw →
      d1.roll = d2.roll → d1.surface = d2.surface := by
  intro Mat d1 d2 h1 h2 h3 h4 h5 h6 h7 h8 h9 h10 h11 h12
  simp only [Detector.surface, Detector.transformation, Detector.transformation_local,
    rowlandComponentTransformation, h1, h2, h3, h4, h5, h6, h7, h8, h9, h10, h11, h12]

/-- Concrete `Detector` with zeroed readout-electronics fields, sharing its
imaging geometry with `detector_b`. -/
def detector_a : Detector Unit :=
  ⟨"detector", "", "", "", 15, some ("detector_x", "detector_y"), 4096, 0, 0, none,
    1000, 0, ⟨0, 0, 0⟩, 0, 0, 0, 0, 0, 0, 0, 0, 0, 0, 1, 0, 0, 0⟩

/-- Concrete `Detector` agreeing with `detector_a` on name, pixel geometry,
exposure time, material and pose/Rowland fields, and differing in every
readout-electronics field. -/
def detector_b : Detector Unit :=
  ⟨"detector", "MSFC", "m1", "42", 15, some ("detector_x", "detector_y"), 4096, 2, 3,
    none, 1000, 0, ⟨0, 0, 0⟩, 0, 0, 0, 200, 5, 2, 7, 4, 9, 11, 1, 13, 17, 16⟩

/-- Witness for claim C8: `detector_a` and `detector_b` differ in their gain
(and in the other readout fields) yet have equal surfaces. -/
theorem claim_C8_witness :
    detector_a.gain ≠ detector_b.gain ∧ detector_a.surface = detector_b.surface :=
  ⟨by norm_num [detector_a, detector_b],
   claim_C8 Unit detector_a detector_b rfl rfl rfl rfl rfl rfl rfl rfl rfl rfl rfl rfl⟩

/-- Claim C9: for each of the five components, `surface` is a pure,
deterministic derivation of the current field values alone: instances with
equal field values have equal surface descriptors.  In this embedding the
accessors are functions of the instance, which is faithful to the source
because the Python properties build fresh objects on every access and
assign to no attribute (the only construction-time mutation is
`SolarDisk.__post_init__`, modelled inside `SolarDisk.construct`), so no
caching and no field mutation exist to invalidate this reading. -/
theorem claim_C9 :
    (∀ a b : FrontAperture, a.translation = b.translation → a.surface = b.surface) ∧
    (∀ a b : SolarDisk, a.radius = b.radius → a.translation = b.translation →
      a.surface = b.surface) ∧
    (∀ (Mat : Type) (a b : FeedOptic Mat), a.name = b.name → a.radius = b.radius →
      a.aperture_subtent = b.aperture_subtent → a.aperture_height = b.aperture_height →
      a.margin_polishing = b.margin_polishing → a.margin_mounting = b.margin_mounting →
      a.material = b.material → a.rowland_radius = b.rowland_radius →
      a.rowland_azimuth = b.rowland_azimuth → a.translation = b.translation →
      a.pitch = b.pitch → a.yaw = b.yaw → a.roll = b.roll → a.surface = b.surface) ∧
    (∀ (Sag Mat Rul : Type) (a b : Grating Sag Mat Rul), a.name = b.name →
      a.sag = b.sag → a.radius = b.radius → a.width_clear = b.width_clear →
      a.width_mech = b.width_mech → a.material = b.material → a.rulings = b.rulings →
      a.rowland_radius = b.rowland_radius → a.rowland_azimuth = b.rowland_azimuth →
      a.translation = b.translation → a.pitch = b.pitch → a.yaw = b.yaw →
      a.roll = b.roll → a.surface = b.surface) ∧
    (∀ (Mat : Type) (a b : Detector Mat), a.name = b.name →
      a.manufacturer = b.manufacturer → a.model_number = b.model_number →
      a.serial_number = b.serial_number → a.width_pixel = b.width_pixel →
      a.axis_pixel = b.axis_pixel → a.num_pixel = b.num_pixel →
      a.num_pixel_overscan = b.num_pixel_overscan →
      a.num_pixel_blank = b.num_pixel_blank → a.material = b.material →
      a.rowland_radius = b.rowland_radius → a.rowland_azimuth = b.rowland_azimuth →
      a.translation = b.translation → a.pitch = b.pitch → a.yaw = b.yaw →
      a.roll = b.roll → a.temperature = b.temperature → a.gain = b.gain →
      a.readout_noise = b.readout_noise → a.dark_current = b.dark_current →
      a.charge_diffusion = b.charge_diffusion →
      a.timedelta_transfer = b.timedelta_transfer →
      a.timedelta_readout = b.timedelta_readout →
      a.timedelta_exposure = b.timedelta_exposure →
      a.timedelta_exposure_min = b.timedelta_exposure_min →
      a.timedelta_exposure_max = b.timedelta_exposure_max →
      a.bits_adc = b.bits_adc → a.surface = b.surface) := by
  refine ⟨?_, ?_, ?_, ?_, ?_⟩
  · intro a b h
    cases a; cases b
    dsimp only at h
    subst h
    rfl
  · intro a b h1 h2
    cases a; cases b
    dsimp only at h1 h2
    subst h1; subst h2
    rfl
  · intro Mat a b h1 h2 h3 h4 h5 h6 h7 h8 h9 h10 h11 h12 h13
    cases a; cases b
    dsimp only at *
    subst_vars
    rfl
  · intro Sag Mat Rul a b h1 h2 h3 h4 h5 h6 h7 h8 h9 h10 h11 h12 h13
    cases a; cases b
    dsimp only at *
    subst_vars
    rfl
  · intro Mat a b h1 h2 h3 h4 h5 h6 h7 h8 h9 h10 h11 h12 h13 h14 h15 h16 h17 h18 h19
      h20 h21 h22 h23 h24 h25 h26 h27
    cases a; cases b
    dsimp only at *
    subst_vars
    rfl

/-- Concrete `FrontAperture` used in the witness of claim C9. -/
def front_aperture_w : FrontAperture := ⟨⟨1, 2, 3⟩⟩

/-- Concrete `SolarDisk` used in the witness of claim C9, built through the
constructor with an explicit radius. -/
def solar_disk_w : SolarDisk := SolarDisk.construct (some 1) ⟨0, 0, 0⟩

/-- Concrete `FeedOptic` used in the witness of claim C9. -/
def feed_optic_w : FeedOptic Unit :=
  ⟨"feed optic", 3, 0, 10, 0, 0, none, 1000, 0, ⟨0, 0, 0⟩, 0, 0, 0⟩

/-- Concrete `Grating` used in the witness of claim C9. -/
def grating_w : Grating Unit Unit Unit :=
  ⟨"grating", none, 1000, ⟨10, 20⟩, ⟨15, 25⟩, none, none, 1000, 0, ⟨0, 0, 0⟩, 0, 0, 0⟩

/-- Witness for claim C9: each conjunct applied at concrete instances with
field-equal arguments. -/
theorem claim_C9_witness :
    FrontAperture.surface front_aperture_w = FrontAperture.surface ⟨⟨1, 2, 3⟩⟩ ∧
    SolarDisk.surface solar_disk_w = SolarDisk.surface ⟨1, ⟨0, 0, 0⟩⟩ ∧
    FeedOptic.surface feed_optic_w = FeedOptic.surface feed_optic_w ∧
    Grating.surface grating_w = Grating.surface grating_w ∧
    Detector.surface detector_a = Detector.surface detector_a :=
  ⟨claim_C9.1 front_aperture_w ⟨⟨1, 2, 3⟩⟩ rfl,
   claim_C9.2.1 solar_disk_w ⟨1, ⟨0, 0, 0⟩⟩ rfl rfl,
   claim_C9.2.2.1 Unit feed_optic_w feed_optic_w rfl rfl rfl rfl rfl rfl rfl rfl rfl
     rfl rfl rfl rfl,
   claim_C9.2.2.2.1 Unit Unit Unit grating_w grating_w rfl rfl rfl rfl rfl rfl rfl rfl
     rfl rfl rfl rfl rfl,
   claim_C9.2.2.2.2 Unit detector_a detector_a rfl rfl rfl rfl rfl rfl rfl rfl rfl rfl
     rfl rfl rfl rfl rfl rfl rfl rfl rfl rfl rfl rfl rfl rfl rfl rfl rfl⟩

/-- Claim C10: the `radius` field of `Grating` affects no output of the
component: replacing it changes neither the surface nor the net
transformation (the surface's shape comes solely from the caller-supplied
sag). -/
theorem claim_C10 :
    ∀ (Sag Mat Rul : Type) (g : Grating Sag Mat Rul) (r : ℝ),
      Grating.surface { g with radius := r } = g.surface ∧
      Grating.transformation { g with radius := r } = g.transformation := by
  intro Sag Mat Rul g r
  exact ⟨rfl, rfl⟩

end

end FurstOptics
